import Mathlib

/-!
Verification of the dynamic-library smoke-test harness in `src/file.c`.

The program is a single `main` function performing four platform calls in
a straight line:

  void* lib = dlopen(path, RTLD_LAZY);        -- load
  entryFunc = dlsym(lib, "ModuleEntry");      -- resolve
  entryFunc(lib)                              -- invoke
  dlclose(lib)                                -- unload

each followed by an error check that prints a diagnostic and returns 1.
We embed the program shallowly: the behaviour of the platform dynamic
loader and of the loaded library's entry function is an environment
oracle (`Env`), and `mainRun` (the embedding of C `main`) is a pure function from that oracle to the
observable outcome: process exit code, the sequence of platform
operations attempted, and the diagnostic lines written.
-/

/-- One of the four platform operations the program can attempt,
in the order they appear in `src/file.c`. -/
inductive Op : Type
  /-- `dlopen(path, RTLD_LAZY)` (file.c line 9) -/
  | load : Op
  /-- `dlsym(lib, "ModuleEntry")` (file.c line 16) -/
  | resolve : Op
  /-- `entryFunc(lib)` (file.c line 23) -/
  | invoke : Op
  /-- `dlclose(lib)` (file.c lines 19 and 28) -/
  | unload : Op
deriving DecidableEq, Repr

instance : Fintype Op :=
  ⟨⟨{Op.load, Op.resolve, Op.invoke, Op.unload}, by decide⟩, by
    intro x; cases x <;> decide⟩

/-- A diagnostic line written by the program. -/
inductive Diag : Type
  /-- `perror(ctx)`: writes `ctx` followed by the platform's
  errno-to-string text to the standard error stream. -/
  | perrorMsg (ctx : String) : Diag
  /-- `printf(s)`: writes the literal line `s` to the standard
  output stream. -/
  | stdoutLine (s : String) : Diag
deriving DecidableEq, Repr

/-- The observable outcome of one run of the program: the value
returned from `main` (the process exit status), the sequence of platform
operations attempted, and the diagnostic lines written. -/
structure RunResult : Type where
  exitCode : Nat
  trace : List Op
  diags : List Diag
deriving DecidableEq, Repr

/-- The behaviour of the external world for one run: whether `dlopen`
returns a non-null handle, what `dlsym(lib, "ModuleEntry")` yields
(`none` = null pointer, `some b` = a callable entry whose return value
is non-zero iff `b`), and whether `dlclose` reports success (returns 0). -/
structure Env : Type where
  dlopenOk : Bool
  moduleEntry : Option Bool
  dlcloseOk : Bool
deriving DecidableEq, Repr

instance : Fintype Env :=
  ⟨⟨{⟨false, none, false⟩, ⟨false, none, true⟩,
     ⟨false, some false, false⟩, ⟨false, some false, true⟩,
     ⟨false, some true, false⟩, ⟨false, some true, true⟩,
     ⟨true, none, false⟩, ⟨true, none, true⟩,
     ⟨true, some false, false⟩, ⟨true, some false, true⟩,
     ⟨true, some true, false⟩, ⟨true, some true, true⟩}, by decide⟩, by
    rintro ⟨a, b, c⟩
    rcases a <;> rcases b with _ | b <;> (try rcases b) <;> rcases c <;> decide⟩

/-- The embedding of `main` from `src/file.c`, line by line. -/
def mainRun (e : Env) : RunResult :=
  -- line  9: void* lib = dlopen(path, RTLD_LAZY);
  -- lines 10-13: if(!lib) { perror("dlopen"); return 1; }
  if e.dlopenOk = false then
    { exitCode := 1, trace := [Op.load], diags := [Diag.perrorMsg "dlopen"] }
  else
    -- line 16: entryFunc = dlsym(lib, "ModuleEntry");
    match e.moduleEntry with
    -- lines 17-21: if (!entryFunc) { perror("dlsym"); dlclose(lib); return 1; }
    | none =>
        { exitCode := 1, trace := [Op.load, Op.resolve, Op.unload],
          diags := [Diag.perrorMsg "dlsym"] }
    | some entryResult =>
        -- lines 23-26: if(!entryFunc(lib)) { printf("failed to init\n"); return 1; }
        if entryResult = false then
          { exitCode := 1, trace := [Op.load, Op.resolve, Op.invoke],
            diags := [Diag.stdoutLine "failed to init"] }
        -- lines 28-31: if (dlclose(lib)) { perror("dlclose"); return 1; }
        else if e.dlcloseOk = false then
          { exitCode := 1, trace := [Op.load, Op.resolve, Op.invoke, Op.unload],
            diags := [Diag.perrorMsg "dlclose"] }
        -- line 33: return 0;
        else
          { exitCode := 0, trace := [Op.load, Op.resolve, Op.invoke, Op.unload],
            diags := [] }

/-- All four steps succeed in environment `e`: `dlopen` yields a handle,
`dlsym` yields a non-null entry, the entry returns non-zero, and
`dlclose` returns 0. -/
def allSucceed (e : Env) : Prop :=
  e.dlopenOk = true ∧ e.moduleEntry = some true ∧ e.dlcloseOk = true

instance (e : Env) : Decidable (allSucceed e) := by
  unfold allSucceed; infer_instance

/-- Claim C1: when load, resolve, invoke (returning non-zero) and unload
all succeed, the program exits with status 0 and attempts exactly one
load, one resolve, one invoke and one unload, in that order. -/
theorem main_success_trace (e : Env)
    (hload : e.dlopenOk = true)
    (hsym : e.moduleEntry = some true)
    (hclose : e.dlcloseOk = true) :
    mainRun e = ⟨0, [Op.load, Op.resolve, Op.invoke, Op.unload], []⟩ := by
  simp [mainRun, hload, hsym, hclose]

theorem main_success_trace_witness :
    mainRun ⟨true, some true, true⟩ =
      ⟨0, [Op.load, Op.resolve, Op.invoke, Op.unload], []⟩ :=
  main_success_trace ⟨true, some true, true⟩ rfl rfl rfl

/-- Claim C2: when load and resolve succeed but the entry function
returns zero, the program prints a message and exits non-zero, and no
unload is attempted (the handle is not released before exit). -/
theorem main_init_failure_leaks_handle (e : Env)
    (hload : e.dlopenOk = true)
    (hsym : e.moduleEntry = some false) :
    (mainRun e).exitCode ≠ 0 ∧
    (mainRun e).trace = [Op.load, Op.resolve, Op.invoke] ∧
    Op.unload ∉ (mainRun e).trace ∧
    (mainRun e).diags = [Diag.stdoutLine "failed to init"] := by
  simp [mainRun, hload, hsym]

theorem main_init_failure_leaks_handle_witness :
    (mainRun ⟨true, some false, true⟩).exitCode ≠ 0 ∧
    (mainRun ⟨true, some false, true⟩).trace = [Op.load, Op.resolve, Op.invoke] ∧
    Op.unload ∉ (mainRun ⟨true, some false, true⟩).trace ∧
    (mainRun ⟨true, some false, true⟩).diags = [Diag.stdoutLine "failed to init"] :=
  main_init_failure_leaks_handle ⟨true, some false, true⟩ rfl rfl

/-- Claim C3: in every environment, the exit status is 0 exactly when all
four steps succeed, and is 1 on every failure path, so the exit code
never distinguishes which kind of failure occurred. -/
theorem main_exit_code_flat :
    ∀ e : Env,
      ((mainRun e).exitCode = 0 ↔ allSucceed e) ∧
      ((mainRun e).exitCode = 0 ∨ (mainRun e).exitCode = 1) := by
  decide

theorem main_exit_code_flat_witness :
    (mainRun ⟨false, some true, true⟩).exitCode = 1 :=
  ((main_exit_code_flat ⟨false, some true, true⟩).2).resolve_left (by decide)

/-- Claim C4: when the load operation fails, the program exits non-zero
after exactly one failed load attempt, with no resolve, invoke or unload
attempts. -/
theorem main_load_failure (e : Env)
    (hload : e.dlopenOk = false) :
    (mainRun e).exitCode = 1 ∧ (mainRun e).trace = [Op.load] := by
  simp [mainRun, hload]

theorem main_load_failure_witness :
    (mainRun ⟨false, none, true⟩).exitCode = 1 ∧
    (mainRun ⟨false, none, true⟩).trace = [Op.load] :=
  main_load_failure ⟨false, none, true⟩ rfl

/-- Claim C5: when load succeeds but resolving `"ModuleEntry"` yields a
null pointer, the program prints a diagnostic, releases the handle
(attempts unload) before exiting, exits non-zero, and never invokes the
entry function. -/
theorem main_resolve_failure (e : Env)
    (hload : e.dlopenOk = true)
    (hsym : e.moduleEntry = none) :
    (mainRun e).exitCode = 1 ∧
    (mainRun e).diags = [Diag.perrorMsg "dlsym"] ∧
    Op.unload ∈ (mainRun e).trace ∧
    Op.invoke ∉ (mainRun e).trace := by
  simp [mainRun, hload, hsym]

theorem main_resolve_failure_witness :
    (mainRun ⟨true, none, true⟩).exitCode = 1 ∧
    (mainRun ⟨true, none, true⟩).diags = [Diag.perrorMsg "dlsym"] ∧
    Op.unload ∈ (mainRun ⟨true, none, true⟩).trace ∧
    Op.invoke ∉ (mainRun ⟨true, none, true⟩).trace :=
  main_resolve_failure ⟨true, none, true⟩ rfl rfl

/-- Claim C6: when load, resolve and invoke succeed but unload reports
failure, the program prints a diagnostic and exits non-zero, with all
four steps having been attempted exactly once. -/
theorem main_unload_failure (e : Env)
    (hload : e.dlopenOk = true)
    (hsym : e.moduleEntry = some true)
    (hclose : e.dlcloseOk = false) :
    (mainRun e).exitCode = 1 ∧
    (mainRun e).trace = [Op.load, Op.resolve, Op.invoke, Op.unload] ∧
    (mainRun e).diags = [Diag.perrorMsg "dlclose"] := by
  simp [mainRun, hload, hsym, hclose]

theorem main_unload_failure_witness :
    (mainRun ⟨true, some true, false⟩).exitCode = 1 ∧
    (mainRun ⟨true, some true, false⟩).trace =
      [Op.load, Op.resolve, Op.invoke, Op.unload] ∧
    (mainRun ⟨true, some true, false⟩).diags = [Diag.perrorMsg "dlclose"] :=
  main_unload_failure ⟨true, some true, false⟩ rfl rfl rfl

/-- Claim C7: every run follows the linear state machine
Start → Loaded → Resolved → Invoked → Unloaded → Success: no operation is
attempted more than once, the trace is always a step-by-step prefix of
the full sequence — except that resolve failure additionally attempts
the handle-releasing unload — and only the full successful sequence
exits 0. -/
theorem main_linear_state_machine :
    ∀ e : Env,
      (∀ op : Op, ((mainRun e).trace.count op) ≤ 1) ∧
      ((mainRun e).trace = [Op.load] ∨
       (mainRun e).trace = [Op.load, Op.resolve, Op.unload] ∨
       (mainRun e).trace = [Op.load, Op.resolve, Op.invoke] ∨
       (mainRun e).trace = [Op.load, Op.resolve, Op.invoke, Op.unload]) ∧
      ((mainRun e).exitCode = 0 →
        (mainRun e).trace = [Op.load, Op.resolve, Op.invoke, Op.unload]) ∧
      ((mainRun e).trace = [Op.load] → (mainRun e).exitCode = 1) ∧
      ((mainRun e).trace = [Op.load, Op.resolve, Op.unload] →
        (mainRun e).exitCode = 1) ∧
      ((mainRun e).trace = [Op.load, Op.resolve, Op.invoke] →
        (mainRun e).exitCode = 1) := by
  decide

theorem main_linear_state_machine_witness :
    (mainRun ⟨true, none, false⟩).exitCode = 1 :=
  (main_linear_state_machine ⟨true, none, false⟩).2.2.2.2.1 (by decide)

/-- Claim C8: on each failure path the program writes exactly one
diagnostic line — an errno-to-string `perror` line whose context string
names the failed step (`"dlopen"`, `"dlsym"`, `"dlclose"`), or the
literal `"failed to init"` for invocation failure — and on the full
success path no diagnostic is written. -/
theorem main_diagnostics :
    ∀ e : Env,
      ((mainRun e).exitCode = 0 ↔ (mainRun e).diags = []) ∧
      (mainRun e).diags =
        (if e.dlopenOk = false then [Diag.perrorMsg "dlopen"]
         else if e.moduleEntry = none then [Diag.perrorMsg "dlsym"]
         else if e.moduleEntry = some false then
           [Diag.stdoutLine "failed to init"]
         else if e.dlcloseOk = false then [Diag.perrorMsg "dlclose"]
         else []) := by
  decide

theorem main_diagnostics_witness :
    (mainRun ⟨true, some true, true⟩).diags = [] :=
  (main_diagnostics ⟨true, some true, true⟩).1.mp (by decide)

/-- Claim C9: the program is deterministic with respect to its
environment: it reads no input of its own, so any two runs in which the
dynamic-loading operations and the entry function behave identically
produce the same exit code, the same operation sequence and the same
diagnostics. -/
theorem main_deterministic (e₁ e₂ : Env)
    (hload : e₁.dlopenOk = e₂.dlopenOk)
    (hsym : e₁.moduleEntry = e₂.moduleEntry)
    (hclose : e₁.dlcloseOk = e₂.dlcloseOk) :
    mainRun e₁ = mainRun e₂ := by
  obtain ⟨a₁, b₁, c₁⟩ := e₁
  obtain ⟨a₂, b₂, c₂⟩ := e₂
  simp only at hload hsym hclose
  subst hload hsym hclose
  rfl

theorem main_deterministic_witness :
    mainRun ⟨true, some true, true⟩ = mainRun ⟨true, some true, true⟩ :=
  main_deterministic ⟨true, some true, true⟩ ⟨true, some true, true⟩ rfl rfl rfl

/-- Claim C10: the entry function pointer is never invoked when it is
null: whenever `dlsym` yields a null pointer the run takes the
resolve-failure branch (releases the handle, exits 1), and the invoke
step appears in a trace only when resolution yielded a non-null
pointer. -/
theorem main_never_invokes_null :
    ∀ e : Env,
      (e.dlopenOk = true → e.moduleEntry = none →
        (mainRun e).exitCode = 1 ∧ Op.unload ∈ (mainRun e).trace ∧
        Op.invoke ∉ (mainRun e).trace) ∧
      (Op.invoke ∈ (mainRun e).trace → e.moduleEntry ≠ none) := by
  decide

theorem main_never_invokes_null_witness :
    (mainRun ⟨true, none, true⟩).exitCode = 1 ∧
    Op.unload ∈ (mainRun ⟨true, none, true⟩).trace ∧
    Op.invoke ∉ (mainRun ⟨true, none, true⟩).trace :=
  (main_never_invokes_null ⟨true, none, true⟩).1 rfl rfl
